import Mathlib

/-!
Shallow embedding of TrinityCore's client spell-request handlers
(`src/server/game/Handlers/SpellHandler.cpp`) together with proofs about
the validation and dispatch pipeline they implement.  Each handler is
translated into a pure Lean function over an explicit state record whose
fields model exactly the pieces of world state the C++ handler consults;
the function's result describes the handler's observable effect (the packet
sent, the mutation performed, or that the request was silently ignored).
-/

/-! ## Common data model -/

/-- Spell definition record: the fields of the C++ `SpellInfo` consulted by
the handlers in `SpellHandler.cpp`.  `noAuraCancel` is
`SPELL_ATTR0_NO_AURA_CANCEL`, `changeRaidMarkerEffect` is
`HasEffect(SPELL_EFFECT_CHANGE_RAID_MARKER)`, `raidMarkerAttr8` is
`SPELL_ATTR8_RAID_MARKER`, `bypassNoResurrectAura` is
`SPELL_ATTR7_BYPASS_NO_RESURRECT_AURA`. -/
structure SpellInfo where
  id : Nat
  isPassive : Bool
  isChanneled : Bool
  noAuraCancel : Bool
  isPositive : Bool
  changeRaidMarkerEffect : Bool
  raidMarkerAttr8 : Bool
  autoRepeatRanged : Bool
  bypassNoResurrectAura : Bool
  canBeUsedInCombat : Bool
deriving DecidableEq, Repr

/-- The unit a session is currently moving (`_player->GetUnitBeingMoved()`):
the session's own player, some other player (remote-control state), or a
creature (for instance a vehicle the player steers). -/
inductive MoverKind where
  | self
  | otherPlayer
  | creatureMover
deriving DecidableEq, Repr

/-- Which unit ends up acting as the caster after vehicle-passenger
redirection: the session's player or the creature mover. -/
inductive Who where
  | player
  | creature
deriving DecidableEq, Repr

/-! ## HandleCastSpellOpcode (lines 300-393) -/

/-- Explicit unit target information used by the rank-selection step:
`GetLevelForTarget(caster)` depends on which unit is the caster, so the
level is recorded for both possible casters. -/
structure UnitTargetInfo where
  levelForPlayerCaster : Nat
  levelForCreatureCaster : Nat
deriving DecidableEq, Repr

/-- Level of the target as seen from the given caster
(`Unit::GetLevelForTarget(caster)`). -/
def UnitTargetInfo.levelFor (t : UnitTargetInfo) : Who → Nat
  | Who.player => t.levelForPlayerCaster
  | Who.creature => t.levelForCreatureCaster

/-- World state consulted by `WorldSession::HandleCastSpellOpcode`.  Function
fields model the external registries and per-unit queries the handler
calls; they are instantiated with concrete closed functions in the
witnesses below. -/
structure CastState where
  /-- `_player->GetUnitBeingMoved()`, classified relative to the player. -/
  mover : MoverKind
  /-- `sSpellMgr->GetSpellInfo(id, mover->GetMap()->GetDifficultyID())`. -/
  registry : Nat → Option SpellInfo
  /-- `caster->ToCreature()->HasSpell(id)` for the creature mover. -/
  creatureKnows : Nat → Bool
  /-- `_player->IsOnVehicle(caster)` where `caster` is the creature mover. -/
  playerOnVehicleOfMover : Bool
  /-- `spellInfo->CheckVehicle(_player) == SPELL_CAST_OK`, keyed by spell id. -/
  checkVehicleOk : Nat → Bool
  /-- `caster->ToPlayer()->HasActiveSpell(id)`. -/
  playerKnows : Nat → Bool
  /-- `targets.GetGOTarget()` with `go->GetSpellForLock(player)`: `some id`
  means a game-object target exists and its lock resolves to spell `id`. -/
  goLockSpell : Option Nat
  /-- `caster->HasAuraTypeWithTriggerSpell(SPELL_AURA_PERIODIC_TRIGGER_SPELL_FROM_CLIENT, id)`
  on the player. -/
  playerTriggerAura : Nat → Bool
  /-- `Player::GetCastSpellInfo`: caster-specific override substitution. -/
  playerCastOverride : SpellInfo → SpellInfo
  /-- `Creature::GetCastSpellInfo` for the creature mover. -/
  creatureCastOverride : SpellInfo → SpellInfo
  /-- `_player->isPossessing()`. -/
  isPossessing : Bool
  /-- `caster->GetCurrentSpell(CURRENT_AUTOREPEAT_SPELL)`: the active
  auto-repeat cast's spell info and its unit-target GUID. -/
  currentAutoRepeat : Option (SpellInfo × Option Nat)
  /-- `targets.GetUnitTarget()`. -/
  unitTarget : Option UnitTargetInfo
  /-- `targets.GetUnitTargetGUID()`. -/
  unitTargetGuid : Option Nat
  /-- `SpellInfo::GetAuraRankForLevel`: the rank variant of a spell for a
  given target level, `none` when no ranked variant exists for that level. -/
  rankForLevel : SpellInfo → Nat → Option SpellInfo

/-- Caster-specific override substitution (`caster->GetCastSpellInfo`),
selected by which unit is the caster. -/
def CastState.overrideFor (st : CastState) : Who → SpellInfo → SpellInfo
  | Who.player => st.playerCastOverride
  | Who.creature => st.creatureCastOverride

/-- Vehicle-passenger redirection step (lines 314-323): when the mover is a
creature that does not know the spell, the caster becomes the player if the
player is on that vehicle and the vehicle-cast-eligibility check passes,
otherwise the request is dropped (`none`). -/
def vehicleRedirect (st : CastState) (si : SpellInfo) : Option Who :=
  match st.mover with
  | MoverKind.creatureMover =>
      if st.creatureKnows si.id = true then some Who.creature
      else if st.playerOnVehicleOfMover = true ∧ st.checkVehicleOk si.id = true then
        some Who.player
      else none
  | MoverKind.self => some Who.player
  | MoverKind.otherPlayer => none

/-- Known-spell gate (lines 330-349).  Returns `none` when the request is
dropped, `some fullyTriggered` when it passes; `fullyTriggered` records
whether `triggerFlag` was set to `TRIGGERED_FULL_MASK` by the
clientside periodic-trigger-aura exemption. -/
def knownSpellGate (st : CastState) (w : Who) (si : SpellInfo) : Option Bool :=
  if w = Who.player ∧ st.playerKnows si.id = false ∧
      si.changeRaidMarkerEffect = false ∧ si.raidMarkerAttr8 = false then
    if st.goLockSpell = some si.id ∨ st.playerTriggerAura si.id = true then
      some (st.playerTriggerAura si.id)
    else none
  else some false

/-- Resend-suppression check for auto-repeat spells (lines 361-367): the
request is skipped when the same spell is already the active auto-repeat
cast against the same target. -/
def autoRepeatDup (st : CastState) (si : SpellInfo) : Bool :=
  si.autoRepeatRanged &&
    match st.currentAutoRepeat with
    | some cur => decide (cur.1 = si) && decide (cur.2 = st.unitTargetGuid)
    | none => false

/-- Level-scoped rank selection (lines 369-377): when an explicit unit
target exists, look up the rank variant for the target's level relative to
the caster and keep the original spell unmodified when none exists. -/
def rankSelect (st : CastState) (w : Who) (si : SpellInfo) : SpellInfo :=
  match st.unitTarget with
  | some t => (st.rankForLevel si (t.levelFor w)).getD si
  | none => si

/-- Observable outcome of `HandleCastSpellOpcode`: either the request is
silently ignored or a cast is started by the given caster with the given
resolved spell, `fullyTriggered` recording the trigger-flag state. -/
inductive CastOutcome where
  | ignored
  | cast (caster : Who) (spell : SpellInfo) (fullyTriggered : Bool)
deriving DecidableEq, Repr

/-- Translation of `WorldSession::HandleCastSpellOpcode` (lines 300-393).
The optional movement-stop payload only forwards to the movement handler
and does not affect spell resolution, so it is not modelled. -/
def HandleCastSpellOpcode (st : CastState) (spellId : Nat) : CastOutcome :=
  if st.mover = MoverKind.otherPlayer then CastOutcome.ignored
  else
    match st.registry spellId with
    | none => CastOutcome.ignored
    | some spellInfo0 =>
      match vehicleRedirect st spellInfo0 with
      | none => CastOutcome.ignored
      | some caster =>
        match knownSpellGate st caster spellInfo0 with
        | none => CastOutcome.ignored
        | some fullTrigger =>
          if (st.overrideFor caster spellInfo0).isPassive = true then CastOutcome.ignored
          else if st.isPossessing = true then CastOutcome.ignored
          else if autoRepeatDup st (st.overrideFor caster spellInfo0) = true then
            CastOutcome.ignored
          else
            CastOutcome.cast caster
              (rankSelect st caster (st.overrideFor caster spellInfo0)) fullTrigger

/-- Spell resolution in the order the code actually performs it:
vehicle-passenger redirection first (on the originally requested spell),
then caster-specific override substitution, then level-scoped rank
selection. -/
def resolveCodeOrder (st : CastState) (si0 : SpellInfo) : Option (Who × SpellInfo) :=
  (vehicleRedirect st si0).map
    (fun w => (w, rankSelect st w (st.overrideFor w si0)))

/-- Spell resolution in the order the specification states it: first
caster-specific override substitution (the caster at that point still being
the mover), then level-scoped rank selection, and only then
vehicle-passenger redirection. -/
def resolveSpecOrder (st : CastState) (si0 : SpellInfo) : Option (Who × SpellInfo) :=
  let moverWho : Who :=
    match st.mover with
    | MoverKind.creatureMover => Who.creature
    | _ => Who.player
  let si1 := st.overrideFor moverWho si0
  let si2 := rankSelect st moverWho si1
  (vehicleRedirect st si2).map (fun w => (w, si2))

/-! ## HandleCancelChanneling (lines 498-518) and HandleCancelAuraOpcode (lines 401-427) -/

/-- State consulted by `WorldSession::HandleCancelChanneling`. -/
structure ChannelState where
  /-- `_player->GetUnitBeingMoved()` classified relative to the player. -/
  mover : MoverKind
  /-- `sSpellMgr->GetSpellInfo(id, mover->GetMap()->GetDifficultyID())`. -/
  registry : Nat → Option SpellInfo
  /-- `mover->GetCurrentSpell(CURRENT_CHANNELED_SPELL)`'s spell info. -/
  currentChanneled : Option SpellInfo

/-- Translation of `WorldSession::HandleCancelChanneling` (lines 498-518).
Returns `true` exactly when `InterruptSpell(CURRENT_CHANNELED_SPELL)` is
called; in every other case the active cast is left untouched. -/
def HandleCancelChanneling (st : ChannelState) (channelSpell : Nat) : Bool :=
  if st.mover = MoverKind.otherPlayer then false
  else
    match st.registry channelSpell with
    | none => false
    | some si =>
      if si.noAuraCancel = true then false
      else
        match st.currentChanneled with
        | none => false
        | some cur => if cur.id = si.id then true else false

/-- State consulted by `WorldSession::HandleCancelAuraOpcode`. -/
structure CancelAuraState where
  /-- `sSpellMgr->GetSpellInfo(id, _player->GetMap()->GetDifficultyID())`. -/
  registry : Nat → Option SpellInfo
  /-- `_player->GetCurrentSpell(CURRENT_CHANNELED_SPELL)`'s spell info. -/
  currentChanneled : Option SpellInfo

/-- Observable outcome of `HandleCancelAuraOpcode`. -/
inductive CancelAuraOutcome where
  | ignored
  | interruptedChannel
  | removedAura (spellId : Nat) (casterGuid : Nat)
deriving DecidableEq, Repr

/-- Translation of `WorldSession::HandleCancelAuraOpcode` (lines 401-427). -/
def HandleCancelAuraOpcode (st : CancelAuraState) (spellId : Nat) (casterGuid : Nat) :
    CancelAuraOutcome :=
  match st.registry spellId with
  | none => CancelAuraOutcome.ignored
  | some si =>
    if si.noAuraCancel = true then CancelAuraOutcome.ignored
    else if si.isChanneled = true then
      match st.currentChanneled with
      | some cur =>
          if cur.id = spellId then CancelAuraOutcome.interruptedChannel
          else CancelAuraOutcome.ignored
      | none => CancelAuraOutcome.ignored
    else if si.isPositive = false ∨ si.isPassive = true then CancelAuraOutcome.ignored
    else CancelAuraOutcome.removedAura spellId casterGuid

/-! ## HandleSelfResOpcode (lines 540-554) -/

/-- State consulted by `WorldSession::HandleSelfResOpcode`. -/
structure SelfResState where
  /-- `_player->m_activePlayerData->SelfResSpells`. -/
  selfResSpells : List Nat
  /-- `sSpellMgr->GetSpellInfo(id, _player->GetMap()->GetDifficultyID())`. -/
  registry : Nat → Option SpellInfo
  /-- `_player->HasAuraType(SPELL_AURA_PREVENT_RESURRECTION)`. -/
  hasPreventResurrectionAura : Bool

/-- Modelled from the spec: `Player::RemoveSelfResSpell` (player code outside
the embedded source file) removes the given spell id from the granted
self-resurrection spell list. -/
def removeSelfResSpell (l : List Nat) (spellId : Nat) : List Nat :=
  l.erase spellId

/-- Translation of `WorldSession::HandleSelfResOpcode` (lines 540-554).
Returns whether the self-resurrection spell was cast together with the
resulting granted-spell list. -/
def HandleSelfResOpcode (st : SelfResState) (spellId : Nat) : Bool × List Nat :=
  if spellId ∈ st.selfResSpells then
    match st.registry spellId with
    | none => (false, st.selfResSpells)
    | some si =>
      if st.hasPreventResurrectionAura = true ∧ si.bypassNoResurrectAura = false then
        (false, st.selfResSpells)
      else (true, removeSelfResSpell st.selfResSpells spellId)
  else (false, st.selfResSpells)

/-! ## HandleTotemDestroyed (lines 520-538) -/

/-- Modelled from the spec: the fixed summon-slot layout of the repository's
unit code (outside the embedded source file) places the totem slots right
after the pet slot, so the totem base slot is 1. -/
def SUMMON_SLOT_TOTEM : Nat := 1

/-- Modelled from the spec: the fixed maximum used by the slot-range check;
the repository's unit code (outside the embedded source file) has four totem
slots, occupying summon slots 1 to 4. -/
def MAX_TOTEM_SLOT : Nat := 5

/-- Number of totem slots: the "maximum totem slot count" a raw request slot
index is measured against. -/
def maxTotemSlotCount : Nat := MAX_TOTEM_SLOT - SUMMON_SLOT_TOTEM

/-- Creature as consulted by `HandleTotemDestroyed`: its identity and
whether it is a totem. -/
structure CreatureT where
  guid : Nat
  isTotem : Bool
deriving DecidableEq, Repr

/-- State consulted by `WorldSession::HandleTotemDestroyed`. -/
structure TotemState where
  /-- Whether `_player->GetUnitBeingMoved() == _player`. -/
  moverIsSelf : Bool
  /-- `_player->m_SummonSlot[slot]`: an empty GUID is `none`. -/
  summonSlot : Nat → Option Nat
  /-- `ObjectAccessor::GetCreature(*_player, guid)`. -/
  world : Nat → Option CreatureT

/-- Translation of `WorldSession::HandleTotemDestroyed` (lines 520-538).
The handler stores the slot in a `uint8` and adds `SUMMON_SLOT_TOTEM`
before the range check, so the additions are taken modulo 256.  Returns
`true` exactly when `UnSummon` is issued. -/
def HandleTotemDestroyed (st : TotemState) (slotIndex : Nat) (totemGuid : Nat) : Bool :=
  if st.moverIsSelf = false then false
  else
    let slotId := (slotIndex % 256 + SUMMON_SLOT_TOTEM) % 256
    if MAX_TOTEM_SLOT ≤ slotId then false
    else
      match st.summonSlot slotId with
      | none => false
      | some g =>
        match st.world g with
        | some totem => totem.isTotem && totem.guid == totemGuid
        | none => false

/-! ## HandlePetCancelAuraOpcode (lines 429-458) -/

/-- Pet creature as consulted by `HandlePetCancelAuraOpcode`. -/
structure PetC where
  alive : Bool
deriving DecidableEq, Repr

/-- State consulted by `WorldSession::HandlePetCancelAuraOpcode`. -/
structure PetCancelState where
  /-- `sSpellMgr->GetSpellInfo(id, DIFFICULTY_NONE)`. -/
  registry : Nat → Option SpellInfo
  /-- `ObjectAccessor::GetCreatureOrPetOrVehicle(*_player, guid)`. -/
  pets : Nat → Option PetC
  /-- GUID of `GetPlayer()->GetGuardianPet()`, when any. -/
  guardianPetGuid : Option Nat
  /-- GUID of `GetPlayer()->GetCharmed()`, when any. -/
  charmedGuid : Option Nat

/-- Observable outcome of `HandlePetCancelAuraOpcode`. -/
inductive PetCancelOutcome where
  /-- The handler logged "unknown PET spell" and returned. -/
  | rejectedSpell
  | noPet
  | notOwnedPet
  | deadFeedback
  | removedAura (spellId : Nat)
deriving DecidableEq, Repr

/-- Translation of `WorldSession::HandlePetCancelAuraOpcode` (lines
429-458).  Note the first check: the handler returns with the "unknown PET
spell" log message when the spell lookup succeeds, and only proceeds when
it fails. -/
def HandlePetCancelAuraOpcode (st : PetCancelState) (spellId : Nat) (petGuid : Nat) :
    PetCancelOutcome :=
  if (st.registry spellId).isSome = true then PetCancelOutcome.rejectedSpell
  else
    match st.pets petGuid with
    | none => PetCancelOutcome.noPet
    | some pet =>
      if st.guardianPetGuid ≠ some petGuid ∧ st.charmedGuid ≠ some petGuid then
        PetCancelOutcome.notOwnedPet
      else if pet.alive = false then PetCancelOutcome.deadFeedback
      else PetCancelOutcome.removedAura spellId

/-! ## HandleCancelModSpeedNoControlAuras (lines 478-489) -/

/-- Aura application as consulted by the bulk cancel-by-category handlers:
its aura type and the attributes of its spell. -/
structure AuraM where
  /-- Whether the aura is of type `SPELL_AURA_MOD_SPEED_NO_CONTROL`. -/
  modSpeedNoControl : Bool
  noAuraCancel : Bool
  isPositive : Bool
  isPassive : Bool
deriving DecidableEq, Repr

/-- State consulted by `WorldSession::HandleCancelModSpeedNoControlAuras`. -/
structure SpeedCancelState where
  /-- GUID of `_player->GetUnitBeingMoved()`, `none` when there is no mover. -/
  moverGuid : Option Nat
  /-- The player's current aura applications. -/
  auras : List AuraM

/-- Translation of `WorldSession::HandleCancelModSpeedNoControlAuras`
(lines 478-489).  Returns the player's aura list after the request. -/
def HandleCancelModSpeedNoControlAuras (st : SpeedCancelState) (targetGuid : Nat) :
    List AuraM :=
  match st.moverGuid with
  | none => st.auras
  | some g =>
    if g ≠ targetGuid then st.auras
    else
      st.auras.filter (fun a =>
        !(a.modSpeedNoControl && !a.noAuraCancel && a.isPositive && !a.isPassive))

/-! ## HandleOpenWrappedItemCallback (lines 232-270) -/

/-- Item instance as consulted by the wrapped-item handlers.  `flags` is the
item's dynamic field-flag mask (`ReplaceAllItemFlags` overwrites it
wholesale). -/
structure ItemW where
  guid : Nat
  entry : Nat
  flags : Nat
  maxDurability : Nat
  giftCreator : Option Nat
  bagSlot : Nat
  slot : Nat
deriving DecidableEq, Repr

/-- Modelled from the spec: `ITEM_FIELD_FLAG_WRAPPED`, the field-flag bit
(defined in item code outside the embedded source file) that marks an item
as a wrapped gift. -/
def ITEM_FIELD_FLAG_WRAPPED : Nat := 8

/-- `Item::IsWrapped`: the wrapped field flag is set. -/
def ItemW.isWrapped (it : ItemW) : Bool :=
  (it.flags &&& ITEM_FIELD_FLAG_WRAPPED) != 0

/-- State consulted by `WorldSession::HandleOpenWrappedItemCallback`. -/
structure WrappedState where
  /-- Whether `GetPlayer()` is still non-null when the continuation runs. -/
  hasPlayer : Bool
  /-- The player's inventory as (position, item) pairs (`GetItemByPos`). -/
  items : List (Nat × ItemW)
  /-- `sObjectMgr` item templates: `MaxDurability` by item entry. -/
  templates : Nat → Nat

/-- `Player::GetItemByPos(pos)` over the modelled inventory. -/
def getItemByPos (items : List (Nat × ItemW)) (pos : Nat) : Option ItemW :=
  (items.find? (fun p => p.1 == pos)).map Prod.snd

/-- Observable outcome of `HandleOpenWrappedItemCallback`. -/
inductive WrappedOutcome where
  /-- `GetPlayer()` was null: the continuation did nothing. -/
  | noSession
  /-- The re-validation failed (item gone, identity changed, or no longer
  wrapped): the continuation returned without mutating anything. -/
  | stale
  /-- The lookup had no gift record: `DestroyItem(bagSlot, slot, true)`. -/
  | destroyedCorrupt (bagSlot : Nat) (slot : Nat)
  /-- Valid match with a record: the item was rewritten to `newItem`, the
  inventory persisted and the gift record deleted in one transaction. -/
  | unwrapped (newItem : ItemW)
deriving DecidableEq, Repr

/-- Translation of `WorldSession::HandleOpenWrappedItemCallback` (lines
232-270).  `lookupResult` is the deferred gift-record lookup's result: the
stored (entry, flags) pair, or `none` when no record exists.  Returns the
outcome together with the resulting inventory. -/
def HandleOpenWrappedItemCallback (st : WrappedState) (pos : Nat) (itemGuid : Nat)
    (lookupResult : Option (Nat × Nat)) : WrappedOutcome × List (Nat × ItemW) :=
  if st.hasPlayer = false then (WrappedOutcome.noSession, st.items)
  else
    match getItemByPos st.items pos with
    | none => (WrappedOutcome.stale, st.items)
    | some item =>
      if item.guid ≠ itemGuid ∨ item.isWrapped = false then
        (WrappedOutcome.stale, st.items)
      else
        match lookupResult with
        | none =>
          (WrappedOutcome.destroyedCorrupt item.bagSlot item.slot,
            st.items.filter (fun p => p.1 != pos))
        | some (entry, flags) =>
          let newItem : ItemW :=
            { item with
              giftCreator := none
              entry := entry
              flags := flags
              maxDurability := st.templates entry }
          (WrappedOutcome.unwrapped newItem,
            st.items.map (fun p => if p.1 = pos then (p.1, newItem) else p))

/-! ## HandleOpenItemOpcode, non-wrapped loot path (lines 209-229) -/

/-- Loot payload: currency, the count of not-yet-looted entries, and the
templated entries themselves. -/
structure LootData where
  gold : Nat
  unlootedCount : Nat
  entries : List Nat
deriving DecidableEq, Repr

/-- State of one container item as consulted by the non-wrapped branch of
`WorldSession::HandleOpenItemOpcode`. -/
structure OpenItemState where
  /-- `item->m_lootGenerated`. -/
  lootGenerated : Bool
  /-- `item->m_loot`: the in-memory loot payload. -/
  mLoot : Option LootData
  /-- The `sLootItemStorage` record for this item instance, when any. -/
  storedLoot : Option LootData
  /-- Modelled from the spec: `Loot::generateMoneyLoot` and `Loot::FillLoot`
  (loot code outside the embedded source file) generate a payload scoped to
  the item's definition; the generation is modelled as a fixed payload
  determined by the item. -/
  genLoot : LootData
deriving DecidableEq, Repr

/-- Observable outcome of the non-wrapped open path: loot delivery
(`Player::SendLoot`) or the explicit no-loot error
(`SendLootError(..., LOOT_ERROR_NO_LOOT)`). -/
inductive OpenOutcome where
  | sentLoot (l : LootData)
  | noLootError
deriving DecidableEq, Repr

/-- Translation of the non-wrapped branch of
`WorldSession::HandleOpenItemOpcode` (lines 209-229).  `LoadStoredLoot` is
modelled from the spec as: when a persisted record exists, load it into the
item (marking the loot generated) and succeed, otherwise fail.  Returns the
item's new state together with the response sent. -/
def HandleOpenItemOpcodeLoot (st : OpenItemState) : OpenItemState × OpenOutcome :=
  let st1 :=
    if st.lootGenerated = false then
      match st.storedLoot with
      | some l => { st with mLoot := some l, lootGenerated := true }
      | none =>
        let loot := st.genLoot
        { st with
          mLoot := some loot
          storedLoot :=
            if loot.gold > 0 ∨ loot.unlootedCount > 0 then some loot
            else st.storedLoot }
    else st
  match st1.mLoot with
  | some l => (st1, OpenOutcome.sentLoot l)
  | none => (st1, OpenOutcome.noLootError)

/-! ## HandleUseItemOpcode (lines 45-137) -/

/-- Equip/use error codes sent by `Player::SendEquipError` on the use-item
path. -/
inductive EquipError where
  | itemNotFound
  | notDuringArenaMatch
  | notInCombat
  | other (code : Nat)
deriving DecidableEq, Repr

/-- Binding policy of an item (`Item::GetBonding`). -/
inductive BindType where
  | unbound
  | onAcquire
  | onUse
  | quest
  | otherBind
deriving DecidableEq, Repr

/-- Item template fields consulted by `HandleUseItemOpcode`. -/
structure ItemTemplateM where
  /-- `GetInventoryType() == INVTYPE_NON_EQUIP`. -/
  invTypeNonEquip : Bool
  /-- `GetClass() == ITEM_CLASS_CONSUMABLE`. -/
  classConsumable : Bool
  /-- `HasFlag(ITEM_FLAG_IGNORE_DEFAULT_ARENA_RESTRICTIONS)`. -/
  ignoreArenaRestrictions : Bool
  /-- `HasFlag(ITEM_FLAG_NOT_USEABLE_IN_ARENA)`. -/
  notUseableInArena : Bool
deriving DecidableEq, Repr

/-- Item instance fields consulted by `HandleUseItemOpcode`. -/
structure UseItemM where
  guid : Nat
  /-- `GetTemplate()`, `none` modelling a null template pointer. -/
  template : Option ItemTemplateM
  /-- `IsEquipped()`. -/
  equipped : Bool
  /-- `GetBonding()`. -/
  bonding : BindType
  /-- `IsSoulBound()`. -/
  soulBound : Bool
  /-- Spell ids of `GetEffects()`. -/
  effectSpells : List Nat
deriving DecidableEq, Repr

/-- State consulted by `WorldSession::HandleUseItemOpcode`. -/
structure UseItemState where
  /-- Whether `user->GetUnitBeingMoved() == user`. -/
  moverIsSelf : Bool
  /-- `user->GetUseableItemByPos(packet.PackSlot, packet.Slot)`. -/
  item : Option UseItemM
  /-- `user->CanUseItem(item)`: `none` models `EQUIP_ERR_OK`. -/
  canUse : Option EquipError
  /-- `user->InArena()`. -/
  inArena : Bool
  /-- `user->IsInCombat()`. -/
  inCombat : Bool
  /-- `sSpellMgr->GetSpellInfo(effect->SpellID, difficulty)`. -/
  registry : Nat → Option SpellInfo
  /-- Whether `sScriptMgr->OnItemUse` handled the request itself. -/
  scriptHandled : Bool

/-- Combat gate of `HandleUseItemOpcode` (lines 101-114): some effect spell
resolves and is flagged not usable in combat. -/
def useItemCombatBlocked (st : UseItemState) (item : UseItemM) : Bool :=
  item.effectSpells.any (fun sid =>
    match st.registry sid with
    | some si => !si.canBeUsedInCombat
    | none => false)

/-- Observable outcome of `HandleUseItemOpcode`. -/
inductive UseItemOutcome where
  /-- Silently ignored (remote-control state). -/
  | ignored
  /-- Rejected with an equip/use error code; no cast, no binding change. -/
  | equipError (e : EquipError)
  /-- The use proceeded to the cast step; `newlyBound` records whether the
  binding flag was flipped on, `byScript` whether a script handled it. -/
  | used (newlyBound : Bool) (byScript : Bool)
deriving DecidableEq, Repr

/-- Translation of `WorldSession::HandleUseItemOpcode` (lines 45-137). -/
def HandleUseItemOpcode (st : UseItemState) (castItemGuid : Nat) : UseItemOutcome :=
  if st.moverIsSelf = false then UseItemOutcome.ignored
  else
    match st.item with
    | none => UseItemOutcome.equipError EquipError.itemNotFound
    | some item =>
      if item.guid ≠ castItemGuid then UseItemOutcome.equipError EquipError.itemNotFound
      else
        match item.template with
        | none => UseItemOutcome.equipError EquipError.itemNotFound
        | some proto =>
          if proto.invTypeNonEquip = false ∧ item.equipped = false then
            UseItemOutcome.equipError EquipError.itemNotFound
          else
            match st.canUse with
            | some msg => UseItemOutcome.equipError msg
            | none =>
              if proto.classConsumable = true ∧ proto.ignoreArenaRestrictions = false ∧
                  st.inArena = true then
                UseItemOutcome.equipError EquipError.notDuringArenaMatch
              else if proto.notUseableInArena = true ∧ st.inArena = true then
                UseItemOutcome.equipError EquipError.notDuringArenaMatch
              else if st.inCombat = true ∧ useItemCombatBlocked st item = true then
                UseItemOutcome.equipError EquipError.notInCombat
              else
                let newlyBound :=
                  (item.bonding = BindType.onUse ∨ item.bonding = BindType.onAcquire ∨
                    item.bonding = BindType.quest) ∧ item.soulBound = false
                UseItemOutcome.used (decide newlyBound) st.scriptHandled

/-! ## Concrete states used by the counterexamples and witnesses -/

/-- Spell definition with the given id and no flags set. -/
def plainSpell (n : Nat) : SpellInfo where
  id := n
  isPassive := false
  isChanneled := false
  noAuraCancel := false
  isPositive := false
  changeRaidMarkerEffect := false
  raidMarkerAttr8 := false
  autoRepeatRanged := false
  bypassNoResurrectAura := false
  canBeUsedInCombat := false

/-- Cast state where the mover is a vehicle creature that knows no spell,
the player is a passenger allowed to cast through it, the player's override
maps spell 1 to spell 2 and the creature's override maps spell 1 to
spell 3. -/
def c1CxState : CastState where
  mover := MoverKind.creatureMover
  registry := fun n =>
    if n = 1 then some (plainSpell 1)
    else if n = 2 then some (plainSpell 2)
    else if n = 3 then some (plainSpell 3)
    else none
  creatureKnows := fun _ => false
  playerOnVehicleOfMover := true
  checkVehicleOk := fun _ => true
  playerKnows := fun n => n == 1
  goLockSpell := none
  playerTriggerAura := fun _ => false
  playerCastOverride := fun si => if si.id = 1 then plainSpell 2 else si
  creatureCastOverride := fun si => if si.id = 1 then plainSpell 3 else si
  isPossessing := false
  currentAutoRepeat := none
  unitTarget := none
  unitTargetGuid := none
  rankForLevel := fun _ _ => none

/-- Cast state for a plain self-cast by a player who knows spell 1. -/
def c1WitState : CastState where
  mover := MoverKind.self
  registry := fun n => if n = 1 then some (plainSpell 1) else none
  creatureKnows := fun _ => false
  playerOnVehicleOfMover := false
  checkVehicleOk := fun _ => false
  playerKnows := fun _ => true
  goLockSpell := none
  playerTriggerAura := fun _ => false
  playerCastOverride := fun si => si
  creatureCastOverride := fun si => si
  isPossessing := false
  currentAutoRepeat := none
  unitTarget := none
  unitTargetGuid := none
  rankForLevel := fun _ _ => none

/-- Cast state for a player who does not know channeled spell 9 but has the
clientside periodic-trigger aura granting it. -/
def c4WitState : CastState where
  mover := MoverKind.self
  registry := fun n => if n = 9 then some (plainSpell 9) else none
  creatureKnows := fun _ => false
  playerOnVehicleOfMover := false
  checkVehicleOk := fun _ => false
  playerKnows := fun _ => false
  goLockSpell := none
  playerTriggerAura := fun n => n == 9
  playerCastOverride := fun si => si
  creatureCastOverride := fun si => si
  isPossessing := false
  currentAutoRepeat := none
  unitTarget := none
  unitTargetGuid := none
  rankForLevel := fun _ _ => none

/-- Wrapped item sitting at inventory position 5. -/
def c2WitItem : ItemW where
  guid := 77
  entry := 100
  flags := ITEM_FIELD_FLAG_WRAPPED
  maxDurability := 0
  giftCreator := some 42
  bagSlot := 0
  slot := 5

/-- State for the wrapped-item continuation witness: a session with a
player holding `c2WitItem` at position 5. -/
def c2WitState : WrappedState where
  hasPlayer := true
  items := [(5, c2WitItem)]
  templates := fun entry => if entry = 300 then 25 else 0

/-- The item `c2WitItem` after a successful unwrap to entry 300 with empty
flags. -/
def c2NewItem : ItemW where
  guid := 77
  entry := 300
  flags := 0
  maxDurability := 25
  giftCreator := none
  bagSlot := 0
  slot := 5

/-- Container item state before its first open: no loot yet, nothing
persisted, whose generated payload holds 10 gold and two entries. -/
def c3WitState : OpenItemState where
  lootGenerated := false
  mLoot := none
  storedLoot := none
  genLoot := { gold := 10, unlootedCount := 2, entries := [7, 8] }

/-- Channeled spell 5 carrying the `SPELL_ATTR0_NO_AURA_CANCEL`
attribute. -/
def c5NoCancelSpell : SpellInfo :=
  { plainSpell 5 with noAuraCancel := true, isChanneled := true }

/-- Cancel-channeling state where the active channeled cast is exactly the
non-cancelable spell 5 the request claims. -/
def c5CxState : ChannelState where
  mover := MoverKind.self
  registry := fun n => if n = 5 then some c5NoCancelSpell else none
  currentChanneled := some c5NoCancelSpell

/-- Channeled, cancelable spell 7. -/
def c5WitSpell : SpellInfo := { plainSpell 7 with isChanneled := true }

/-- Cancel-channeling state where the active channeled cast is the
cancelable channeled spell 7. -/
def c5WitState : ChannelState where
  mover := MoverKind.self
  registry := fun n => if n = 7 then some c5WitSpell else none
  currentChanneled := some c5WitSpell

/-- Self-resurrection spell 11 without the bypass attribute. -/
def c6WitSpell : SpellInfo := plainSpell 11

/-- Self-resurrection state: spell 11 granted, resurrection currently
prevented by an aura. -/
def c6WitState : SelfResState where
  selfResSpells := [11, 12]
  registry := fun n => if n = 11 then some c6WitSpell else none
  hasPreventResurrectionAura := true

/-- Totem state where summon slot 0 (the pet slot) holds a totem with
guid 7 that is present in the world. -/
def c7CxState : TotemState where
  moverIsSelf := true
  summonSlot := fun n => if n = 0 then some 7 else none
  world := fun g => if g = 7 then some { guid := 7, isTotem := true } else none

/-- Totem state where totem slot 1 (raw request slot index 0) holds a totem
with guid 9. -/
def c7WitState : TotemState where
  moverIsSelf := true
  summonSlot := fun n => if n = 1 then some 9 else none
  world := fun g => if g = 9 then some { guid := 9, isTotem := true } else none

/-- Consumable item template without the arena-exemption flag. -/
def c8WitProto : ItemTemplateM where
  invTypeNonEquip := true
  classConsumable := true
  ignoreArenaRestrictions := false
  notUseableInArena := false

/-- Consumable item instance with guid 21. -/
def c8WitItem : UseItemM where
  guid := 21
  template := some c8WitProto
  equipped := false
  bonding := BindType.unbound
  soulBound := false
  effectSpells := []

/-- Use-item state: a player in an arena holding the consumable
`c8WitItem`, with every earlier gate passing. -/
def c8WitState : UseItemState where
  moverIsSelf := true
  item := some c8WitItem
  canUse := none
  inArena := true
  inCombat := false
  registry := fun _ => none
  scriptHandled := false

/-- Pet-cancel state where spell 13 resolves to a known definition and the
player owns a living guardian pet with guid 3. -/
def c9WitState : PetCancelState where
  registry := fun n => if n = 13 then some (plainSpell 13) else none
  pets := fun g => if g = 3 then some { alive := true } else none
  guardianPetGuid := some 3
  charmedGuid := none

/-- Speed-cancel state: the session moves unit 4 and the player carries one
cancelable speed-without-control aura. -/
def c10WitState : SpeedCancelState where
  moverGuid := some 4
  auras :=
    [{ modSpeedNoControl := true, noAuraCancel := false, isPositive := true,
       isPassive := false }]

/-! ## Theorems -/

/-- Claim C5 (counterexample): the active channeled cast's spell id equals
the id claimed by the cancel request, yet no interrupt occurs, because the
spell carries `SPELL_ATTR0_NO_AURA_CANCEL`.  This falsifies the claim's
"if" direction at a concrete input. -/
theorem c5_counterexample :
    c5CxState.currentChanneled = some c5NoCancelSpell ∧ c5NoCancelSpell.id = 5 ∧
      HandleCancelChanneling c5CxState 5 = false :=
  ⟨rfl, rfl, rfl⟩

/-- Claim C5 (amended): a cancel-channeling request (and the channeled
branch of the aura-cancel request) interrupts the active channeled cast
only if that cast exists and its spell id equals the claimed id — any
mismatch or absent cast leaves it untouched — and the interrupt moreover
requires the claimed id to resolve to a known spell definition without the
`SPELL_ATTR0_NO_AURA_CANCEL` attribute (cancel-channeling additionally
requires the session's mover not to be another player); under those
conditions a match does interrupt. -/
theorem c5_cancel_channel_interrupt :
    (∀ st claimId, HandleCancelChanneling st claimId = true →
      ∃ si cur, st.registry claimId = some si ∧ si.noAuraCancel = false ∧
        st.currentChanneled = some cur ∧ cur.id = si.id)
    ∧ (∀ st claimId si cur, st.mover ≠ MoverKind.otherPlayer →
        st.registry claimId = some si → si.noAuraCancel = false →
        st.currentChanneled = some cur → cur.id = si.id →
        HandleCancelChanneling st claimId = true)
    ∧ (∀ st claimId, st.currentChanneled = none →
        HandleCancelChanneling st claimId = false)
    ∧ (∀ st claimId si cur, st.registry claimId = some si →
        st.currentChanneled = some cur → cur.id ≠ si.id →
        HandleCancelChanneling st claimId = false)
    ∧ (∀ st spellId casterGuid,
        HandleCancelAuraOpcode st spellId casterGuid = CancelAuraOutcome.interruptedChannel →
        ∃ si cur, st.registry spellId = some si ∧ si.noAuraCancel = false ∧
          si.isChanneled = true ∧ st.currentChanneled = some cur ∧ cur.id = spellId)
    ∧ (∀ st spellId casterGuid cur, st.currentChanneled = some cur → cur.id ≠ spellId →
        HandleCancelAuraOpcode st spellId casterGuid ≠ CancelAuraOutcome.interruptedChannel) := by
  refine ⟨?_, ?_, ?_, ?_, ?_, ?_⟩
  · intro st claimId h
    by_cases hm : st.mover = MoverKind.otherPlayer
    · simp [HandleCancelChanneling, hm] at h
    · cases hreg : st.registry claimId with
      | none => simp [HandleCancelChanneling, hm, hreg] at h
      | some si =>
        cases hnc : si.noAuraCancel with
        | true => simp [HandleCancelChanneling, hm, hreg, hnc] at h
        | false =>
          cases hcur : st.currentChanneled with
          | none => simp [HandleCancelChanneling, hm, hreg, hnc, hcur] at h
          | some cur =>
            by_cases hid : cur.id = si.id
            · exact ⟨si, cur, rfl, hnc, rfl, hid⟩
            · simp [HandleCancelChanneling, hm, hreg, hnc, hcur, hid] at h
  · intro st claimId si cur hm hreg hnc hcur hid
    simp [HandleCancelChanneling, hm, hreg, hnc, hcur, hid]
  · intro st claimId hcur
    unfold HandleCancelChanneling
    split
    · rfl
    · cases st.registry claimId with
      | none => rfl
      | some si => cases hnc : si.noAuraCancel <;> simp [hnc, hcur]
  · intro st claimId si cur hreg hcur hid
    unfold HandleCancelChanneling
    split
    · rfl
    · rw [hreg]
      cases hnc : si.noAuraCancel <;> simp [hnc, hcur, hid]
  · intro st spellId casterGuid h
    cases hreg : st.registry spellId with
    | none => simp [HandleCancelAuraOpcode, hreg] at h
    | some si =>
      cases hnc : si.noAuraCancel with
      | true => simp [HandleCancelAuraOpcode, hreg, hnc] at h
      | false =>
        cases hch : si.isChanneled with
        | false =>
          by_cases hpp : si.isPositive = false ∨ si.isPassive = true <;>
            simp [HandleCancelAuraOpcode, hreg, hnc, hch, hpp] at h
        | true =>
          cases hcur : st.currentChanneled with
          | none => simp [HandleCancelAuraOpcode, hreg, hnc, hch, hcur] at h
          | some cur =>
            by_cases hid : cur.id = spellId
            · exact ⟨si, cur, rfl, hnc, hch, rfl, hid⟩
            · simp [HandleCancelAuraOpcode, hreg, hnc, hch, hcur, hid] at h
  · intro st spellId casterGuid cur hcur hid h
    cases hreg : st.registry spellId with
    | none => simp [HandleCancelAuraOpcode, hreg] at h
    | some si =>
      cases hnc : si.noAuraCancel with
      | true => simp [HandleCancelAuraOpcode, hreg, hnc] at h
      | false =>
        cases hch : si.isChanneled with
        | false =>
          by_cases hpp : si.isPositive = false ∨ si.isPassive = true <;>
            simp [HandleCancelAuraOpcode, hreg, hnc, hch, hpp] at h
        | true => simp [HandleCancelAuraOpcode, hreg, hnc, hch, hcur, hid] at h

/-- Claim C5 (amended, witness): with the cancelable channeled spell 7
active, a cancel request claiming id 7 interrupts the cast. -/
theorem c5_cancel_channel_interrupt_witness :
    HandleCancelChanneling c5WitState 7 = true :=
  c5_cancel_channel_interrupt.2.1 c5WitState 7 c5WitSpell c5WitSpell
    (by decide) rfl rfl rfl rfl

/-- Claim C6: a self-resurrect request whose spell id is in the granted
list performs no cast and no list mutation while a resurrection-prevention
aura is active and the spell lacks the bypass attribute; otherwise it casts
and removes the id from the list; an id not in the list is ignored. -/
theorem c6_self_res_gate (st : SelfResState) (spellId : Nat) (si : SpellInfo)
    (hr : st.registry spellId = some si) :
    (spellId ∈ st.selfResSpells → st.hasPreventResurrectionAura = true →
      si.bypassNoResurrectAura = false →
      HandleSelfResOpcode st spellId = (false, st.selfResSpells))
    ∧ (spellId ∈ st.selfResSpells →
        ¬(st.hasPreventResurrectionAura = true ∧ si.bypassNoResurrectAura = false) →
        HandleSelfResOpcode st spellId = (true, removeSelfResSpell st.selfResSpells spellId))
    ∧ (spellId ∉ st.selfResSpells → HandleSelfResOpcode st spellId = (false, st.selfResSpells)) := by
  refine ⟨?_, ?_, ?_⟩
  · intro hmem hprev hbyp
    simp [HandleSelfResOpcode, hmem, hr, hprev, hbyp]
  · intro hmem hnot
    simp [HandleSelfResOpcode, hmem, hr, hnot]
  · intro hmem
    simp [HandleSelfResOpcode, hmem]

/-- Claim C6 (witness): granted spell 11 with a resurrection-prevention
aura active and no bypass attribute results in no cast and no list
mutation. -/
theorem c6_self_res_gate_witness :
    HandleSelfResOpcode c6WitState 11 = (false, c6WitState.selfResSpells) :=
  (c6_self_res_gate c6WitState 11 c6WitSpell rfl).1 (by decide) rfl rfl

/-- Claim C7 (counterexample): a destroy-summon request with slot index
255 — at or above the maximum totem slot count — is not a no-op: the
handler's 8-bit slot arithmetic wraps 255 + 1 to summon slot 0, and a
matching totem held there is unsummoned. -/
theorem c7_wraparound_counterexample :
    maxTotemSlotCount ≤ 255 ∧ HandleTotemDestroyed c7CxState 255 7 = true := by
  exact ⟨by decide, rfl⟩

/-- Claim C7 (amended): because the handler stores the slot in an 8-bit
variable and adds the totem slot base before the range check, a
destroy-summon request whose slot index has 8-bit residue at or above the
maximum totem slot count is a no-op except for residue 255, which wraps to
summon slot 0; for an in-range slot the unsummon is issued exactly when the
slot holds a creature present in the world that is a totem and whose
identity equals the claimed identity (and the session moves its own
player). -/
theorem c7_totem_destroyed_range (st : TotemState) (slotIndex totemGuid : Nat) :
    (maxTotemSlotCount ≤ slotIndex % 256 → slotIndex % 256 ≠ 255 →
      HandleTotemDestroyed st slotIndex totemGuid = false)
    ∧ (slotIndex % 256 < maxTotemSlotCount →
        (HandleTotemDestroyed st slotIndex totemGuid = true ↔
          st.moverIsSelf = true ∧
          ∃ g c, st.summonSlot (slotIndex % 256 + SUMMON_SLOT_TOTEM) = some g ∧
            st.world g = some c ∧ c.isTotem = true ∧ c.guid = totemGuid)) := by
  constructor
  · intro h1 h2
    have h256 : slotIndex % 256 < 256 := Nat.mod_lt _ (by norm_num)
    have hsum : slotIndex % 256 + SUMMON_SLOT_TOTEM < 256 := by
      unfold SUMMON_SLOT_TOTEM; omega
    have hmod : (slotIndex % 256 + SUMMON_SLOT_TOTEM) % 256 =
        slotIndex % 256 + SUMMON_SLOT_TOTEM := Nat.mod_eq_of_lt hsum
    have hge : MAX_TOTEM_SLOT ≤ (slotIndex % 256 + SUMMON_SLOT_TOTEM) % 256 := by
      rw [hmod]
      unfold MAX_TOTEM_SLOT SUMMON_SLOT_TOTEM
      unfold maxTotemSlotCount MAX_TOTEM_SLOT SUMMON_SLOT_TOTEM at h1
      omega
    unfold HandleTotemDestroyed
    split
    · rfl
    · rw [if_pos hge]
  · intro hlt
    have h256 : slotIndex % 256 < 256 := Nat.mod_lt _ (by norm_num)
    have hsum : slotIndex % 256 + SUMMON_SLOT_TOTEM < 256 := by
      unfold maxTotemSlotCount MAX_TOTEM_SLOT SUMMON_SLOT_TOTEM at hlt
      unfold SUMMON_SLOT_TOTEM; omega
    have hmod : (slotIndex % 256 + SUMMON_SLOT_TOTEM) % 256 =
        slotIndex % 256 + SUMMON_SLOT_TOTEM := Nat.mod_eq_of_lt hsum
    have hrange : ¬ MAX_TOTEM_SLOT ≤ (slotIndex % 256 + SUMMON_SLOT_TOTEM) % 256 := by
      rw [hmod]
      unfold maxTotemSlotCount MAX_TOTEM_SLOT SUMMON_SLOT_TOTEM at hlt
      unfold MAX_TOTEM_SLOT SUMMON_SLOT_TOTEM
      omega
    unfold HandleTotemDestroyed
    cases hms : st.moverIsSelf with
    | false => simp [hms]
    | true =>
      simp only [hms]
      rw [if_neg (by simp), if_neg hrange, hmod]
      cases hss : st.summonSlot (slotIndex % 256 + SUMMON_SLOT_TOTEM) with
      | none => simp
      | some g =>
        cases hw : st.world g with
        | none => simp [hw]
        | some c => simp [hw]

/-- Claim C7 (amended, witness): slot index 4 (8-bit residue 4, at the
maximum totem slot count and below 255) is a no-op. -/
theorem c7_totem_destroyed_range_witness :
    HandleTotemDestroyed c7WitState 4 9 = false :=
  (c7_totem_destroyed_range c7WitState 4 9).1 (by decide) (by decide)

/-- Claim C9: whenever the pet cancel-aura request's spell id resolves to a
known definition the handler logs it as an unknown pet spell and removes
nothing; an aura removal can only happen when the id has no definition. -/
theorem c9_pet_cancel_inverted_check (st : PetCancelState) (spellId petGuid : Nat) :
    (∀ si, st.registry spellId = some si →
      HandlePetCancelAuraOpcode st spellId petGuid = PetCancelOutcome.rejectedSpell)
    ∧ (∀ sid, HandlePetCancelAuraOpcode st spellId petGuid = PetCancelOutcome.removedAura sid →
        st.registry spellId = none) := by
  constructor
  · intro si h
    simp [HandlePetCancelAuraOpcode, h]
  · intro sid h
    cases hreg : st.registry spellId with
    | none => rfl
    | some si => simp [HandlePetCancelAuraOpcode, hreg] at h

/-- Claim C9 (witness): spell 13 resolves, so the request against the
living owned pet 3 is rejected as an unknown pet spell. -/
theorem c9_pet_cancel_inverted_check_witness :
    HandlePetCancelAuraOpcode c9WitState 13 3 = PetCancelOutcome.rejectedSpell :=
  (c9_pet_cancel_inverted_check c9WitState 13 3).1 (plainSpell 13) rfl

/-- Claim C10: the speed-without-control aura cancel removes auras only
when the request's target identity equals the session's current mover; with
no mover or a different identity the player's aura set is unchanged; on a
match exactly the cancelable, positive, non-passive auras of that type are
removed. -/
theorem c10_speed_cancel_mover_gate (st : SpeedCancelState) (targetGuid : Nat) :
    (HandleCancelModSpeedNoControlAuras st targetGuid ≠ st.auras →
      st.moverGuid = some targetGuid)
    ∧ (st.moverGuid = none → HandleCancelModSpeedNoControlAuras st targetGuid = st.auras)
    ∧ (∀ g, st.moverGuid = some g → g ≠ targetGuid →
        HandleCancelModSpeedNoControlAuras st targetGuid = st.auras)
    ∧ (st.moverGuid = some targetGuid →
        HandleCancelModSpeedNoControlAuras st targetGuid =
          st.auras.filter (fun a =>
            !(a.modSpeedNoControl && !a.noAuraCancel && a.isPositive && !a.isPassive))) := by
  refine ⟨?_, ?_, ?_, ?_⟩
  · intro h
    cases hm : st.moverGuid with
    | none => exact absurd (by simp [HandleCancelModSpeedNoControlAuras, hm]) h
    | some g =>
      by_cases hg : g = targetGuid
      · exact congrArg some hg
      · exact absurd (by simp [HandleCancelModSpeedNoControlAuras, hm, hg]) h
  · intro hm
    simp [HandleCancelModSpeedNoControlAuras, hm]
  · intro g hm hg
    simp [HandleCancelModSpeedNoControlAuras, hm, hg]
  · intro hm
    simp [HandleCancelModSpeedNoControlAuras, hm]

/-- Claim C10 (witness): when the mover's identity equals the target
identity, the single cancelable speed-without-control aura is removed. -/
theorem c10_speed_cancel_mover_gate_witness :
    HandleCancelModSpeedNoControlAuras c10WitState 4 =
      c10WitState.auras.filter (fun a =>
        !(a.modSpeedNoControl && !a.noAuraCancel && a.isPositive && !a.isPassive)) :=
  (c10_speed_cancel_mover_gate c10WitState 4).2.2.2 rfl

/-- Claim C2: the wrapped-item continuation re-fetches the item at the
captured slot and aborts without mutation when it is absent, has a
different identity, or is no longer wrapped; when it re-validates but the
lookup has no gift record the item is destroyed from the owner's
inventory; only on a valid match with a record are the item's entry, flags
and durability rewritten (with the inventory persisted and the gift record
deleted in one transaction, the `unwrapped` outcome). -/
theorem c2_wrapped_callback_revalidation (st : WrappedState) (pos itemGuid : Nat)
    (res : Option (Nat × Nat)) (hp : st.hasPlayer = true) :
    (getItemByPos st.items pos = none →
      HandleOpenWrappedItemCallback st pos itemGuid res = (WrappedOutcome.stale, st.items))
    ∧ (∀ it, getItemByPos st.items pos = some it →
        it.guid ≠ itemGuid ∨ it.isWrapped = false →
        HandleOpenWrappedItemCallback st pos itemGuid res = (WrappedOutcome.stale, st.items))
    ∧ (∀ it, getItemByPos st.items pos = some it → it.guid = itemGuid → it.isWrapped = true →
        HandleOpenWrappedItemCallback st pos itemGuid none =
          (WrappedOutcome.destroyedCorrupt it.bagSlot it.slot,
            st.items.filter (fun p => p.1 != pos)))
    ∧ (∀ it entry flags, getItemByPos st.items pos = some it → it.guid = itemGuid →
        it.isWrapped = true →
        HandleOpenWrappedItemCallback st pos itemGuid (some (entry, flags)) =
          (WrappedOutcome.unwrapped
            { it with
              giftCreator := none
              entry := entry
              flags := flags
              maxDurability := st.templates entry },
            st.items.map (fun p =>
              if p.1 = pos then
                (p.1,
                  { it with
                    giftCreator := none
                    entry := entry
                    flags := flags
                    maxDurability := st.templates entry })
              else p))) := by
  refine ⟨?_, ?_, ?_, ?_⟩
  · intro h
    simp [HandleOpenWrappedItemCallback, hp, h]
  · intro it hit hbad
    rcases hbad with hbad | hbad <;>
      simp [HandleOpenWrappedItemCallback, hp, hit, hbad]
  · intro it hit hg hw
    simp [HandleOpenWrappedItemCallback, hp, hit, hg, hw]
  · intro it entry flags hit hg hw
    simp [HandleOpenWrappedItemCallback, hp, hit, hg, hw]

/-- Claim C2 (witness): a valid match with a gift record (entry 300,
flags 0) rewrites the item and updates the inventory in place. -/
theorem c2_wrapped_callback_revalidation_witness :
    HandleOpenWrappedItemCallback c2WitState 5 77 (some (300, 0)) =
      (WrappedOutcome.unwrapped c2NewItem,
        c2WitState.items.map (fun p => if p.1 = 5 then (p.1, c2NewItem) else p)) :=
  (c2_wrapped_callback_revalidation c2WitState 5 77 (some (300, 0)) rfl).2.2.2
    c2WitItem 300 0 rfl rfl rfl

/-- Claim C3: opening a non-wrapped lootable container is idempotent in
its delivered loot contents; existing loot (in memory or loadable from
storage) is reused; a fresh payload is persisted only when it has
non-empty value; a no-loot error is sent exactly when the item ends up
with no loot. -/
theorem c3_open_loot_idempotent (st : OpenItemState) :
    ((HandleOpenItemOpcodeLoot (HandleOpenItemOpcodeLoot st).1).2 =
      (HandleOpenItemOpcodeLoot st).2)
    ∧ (st.lootGenerated = true → (HandleOpenItemOpcodeLoot st).1 = st)
    ∧ (∀ l, st.lootGenerated = false → st.storedLoot = some l →
        HandleOpenItemOpcodeLoot st =
          ({ st with mLoot := some l, lootGenerated := true }, OpenOutcome.sentLoot l))
    ∧ (st.lootGenerated = false → st.storedLoot = none →
        ((HandleOpenItemOpcodeLoot st).1.storedLoot = none ↔
          (st.genLoot.gold = 0 ∧ st.genLoot.unlootedCount = 0)))
    ∧ (st.lootGenerated = false → st.storedLoot = none →
        (HandleOpenItemOpcodeLoot st).2 = OpenOutcome.sentLoot st.genLoot)
    ∧ ((HandleOpenItemOpcodeLoot st).2 = OpenOutcome.noLootError ↔
        (HandleOpenItemOpcodeLoot st).1.mLoot = none) := by
  obtain ⟨lg, ml, sl, gen⟩ := st
  refine ⟨?_, ?_, ?_, ?_, ?_, ?_⟩
  · cases lg with
    | true => cases ml <;> simp [HandleOpenItemOpcodeLoot]
    | false =>
      cases sl with
      | some l => simp [HandleOpenItemOpcodeLoot]
      | none =>
        by_cases hempty : gen.gold > 0 ∨ gen.unlootedCount > 0 <;>
          simp [HandleOpenItemOpcodeLoot, hempty]
  · intro h
    subst h
    cases ml <;> simp [HandleOpenItemOpcodeLoot]
  · intro l h hs
    subst h
    subst hs
    simp [HandleOpenItemOpcodeLoot]
  · intro h hs
    subst h
    subst hs
    by_cases hempty : gen.gold > 0 ∨ gen.unlootedCount > 0 <;>
      simp [HandleOpenItemOpcodeLoot, hempty] <;> omega
  · intro h hs
    subst h
    subst hs
    by_cases hempty : gen.gold > 0 ∨ gen.unlootedCount > 0 <;>
      simp [HandleOpenItemOpcodeLoot, hempty]
  · cases lg with
    | true => cases ml <;> simp [HandleOpenItemOpcodeLoot]
    | false =>
      cases sl with
      | some l => simp [HandleOpenItemOpcodeLoot]
      | none =>
        by_cases hempty : gen.gold > 0 ∨ gen.unlootedCount > 0 <;>
          simp [HandleOpenItemOpcodeLoot, hempty]

/-- Claim C3 (witness): a first open of a container whose generated payload
has value delivers that payload, persists it, and a second open delivers
identical contents. -/
theorem c3_open_loot_idempotent_witness :
    (HandleOpenItemOpcodeLoot (HandleOpenItemOpcodeLoot c3WitState).1).2 =
      (HandleOpenItemOpcodeLoot c3WitState).2 ∧
    (HandleOpenItemOpcodeLoot c3WitState).2 = OpenOutcome.sentLoot c3WitState.genLoot :=
  ⟨(c3_open_loot_idempotent c3WitState).1,
    (c3_open_loot_idempotent c3WitState).2.2.2.2.1 rfl rfl⟩

/-- Claim C8: a use-item request that passes the earlier gates (correct
mover, item present with matching identity and template, equip state fine,
capability check passing) but names a consumable-class item without the
arena-exemption flag while the user is in an arena is rejected with the
not-during-ranked-match error, and no cast or binding side effect
occurs. -/
theorem c8_consumable_arena_block (st : UseItemState) (castItemGuid : Nat)
    (item : UseItemM) (proto : ItemTemplateM)
    (hm : st.moverIsSelf = true) (hi : st.item = some item) (hg : item.guid = castItemGuid)
    (ht : item.template = some proto) (he : proto.invTypeNonEquip = true ∨ item.equipped = true)
    (hc : st.canUse = none) (hcons : proto.classConsumable = true)
    (hfl : proto.ignoreArenaRestrictions = false) (ha : st.inArena = true) :
    HandleUseItemOpcode st castItemGuid =
      UseItemOutcome.equipError EquipError.notDuringArenaMatch
    ∧ ∀ b s, HandleUseItemOpcode st castItemGuid ≠ UseItemOutcome.used b s := by
  have heq : HandleUseItemOpcode st castItemGuid =
      UseItemOutcome.equipError EquipError.notDuringArenaMatch := by
    rcases he with he | he <;>
      simp [HandleUseItemOpcode, hm, hi, hg, ht, he, hc, hcons, hfl, ha]
  refine ⟨heq, fun b s h => ?_⟩
  rw [heq] at h
  exact UseItemOutcome.noConfusion h

/-- Claim C8 (witness): the arena consumable `c8WitItem` is rejected with
the not-during-ranked-match error. -/
theorem c8_consumable_arena_block_witness :
    HandleUseItemOpcode c8WitState 21 =
      UseItemOutcome.equipError EquipError.notDuringArenaMatch :=
  (c8_consumable_arena_block c8WitState 21 c8WitItem c8WitProto rfl rfl rfl rfl
    (Or.inl rfl) rfl rfl rfl rfl).1

/-- Claim C1 (counterexample): at this concrete state the code casts spell 2
with the creature-redirected caster resolution order, while resolving in
the claim's order (override first, then rank, then vehicle redirection)
yields spell 3 for the player — the claim's step order disagrees with the
code on both the resolved spell and the effective caster. -/
theorem c1_spec_order_counterexample :
    HandleCastSpellOpcode c1CxState 1 =
      CastOutcome.cast Who.player (plainSpell 2) false ∧
    resolveSpecOrder c1CxState (plainSpell 1) = some (Who.player, plainSpell 3) ∧
    plainSpell 2 ≠ plainSpell 3 :=
  ⟨rfl, rfl, by decide⟩

/-- Claim C1 (amended): whenever a cast-spell request results in a cast,
the effective caster and resolved spell are obtained by applying, in this
order, vehicle-passenger redirection (decided on the originally requested
spell), then caster-specific override substitution, then level-scoped rank
selection keyed by the explicit unit target's level (keeping the spell
unmodified when no rank variant exists). -/
theorem c1_resolution_order (st : CastState) (spellId : Nat) (w : Who) (si : SpellInfo)
    (f : Bool) (h : HandleCastSpellOpcode st spellId = CastOutcome.cast w si f) :
    ∃ si0, st.registry spellId = some si0 ∧ resolveCodeOrder st si0 = some (w, si) := by
  unfold HandleCastSpellOpcode at h
  split at h
  · exact CastOutcome.noConfusion h
  · split at h
    · exact CastOutcome.noConfusion h
    · rename_i si0 hreg
      split at h
      · exact CastOutcome.noConfusion h
      · rename_i caster hveh
        split at h
        · exact CastOutcome.noConfusion h
        · rename_i ft hgate
          split at h
          · exact CastOutcome.noConfusion h
          · split at h
            · exact CastOutcome.noConfusion h
            · split at h
              · exact CastOutcome.noConfusion h
              · injection h with h1 h2 h3
                subst h1
                refine ⟨si0, hreg, ?_⟩
                simp [resolveCodeOrder, hveh, h2]

/-- Claim C1 (amended, witness): a plain self-cast of known spell 1
resolves through the code-order composition. -/
theorem c1_resolution_order_witness :
    ∃ si0, c1WitState.registry 1 = some si0 ∧
      resolveCodeOrder c1WitState si0 = some (Who.player, plainSpell 1) :=
  c1_resolution_order c1WitState 1 Who.player (plainSpell 1) false rfl

/-- Flag value recorded by the known-spell gate: the cast is marked fully
triggered exactly when the gate was active (spell unknown, not a raid
marker) and passed through the clientside periodic-trigger-aura
exemption. -/
theorem knownSpellGate_flag (st : CastState) (si : SpellInfo) (ft : Bool)
    (h : knownSpellGate st Who.player si = some ft) :
    (ft = true ↔ (st.playerKnows si.id = false ∧ si.changeRaidMarkerEffect = false ∧
      si.raidMarkerAttr8 = false ∧ st.playerTriggerAura si.id = true)) := by
  unfold knownSpellGate at h
  by_cases hc : (Who.player = Who.player ∧ st.playerKnows si.id = false ∧
      si.changeRaidMarkerEffect = false ∧ si.raidMarkerAttr8 = false)
  · rw [if_pos hc] at h
    by_cases hal : st.goLockSpell = some si.id ∨ st.playerTriggerAura si.id = true
    · rw [if_pos hal] at h
      injection h with h1
      rw [← h1]
      simp [hc.2.1, hc.2.2.1, hc.2.2.2]
    · rw [if_neg hal] at h
      exact Option.noConfusion h
  · rw [if_neg hc] at h
    injection h with h1
    subst h1
    simp only [Bool.false_eq_true, false_iff]
    intro hrhs
    exact hc ⟨rfl, hrhs.1, hrhs.2.1, hrhs.2.2.1⟩

/-- Claim C4: for a player casting as their own mover with a resolved spell
definition, the request proceeds past the known-spell gate exactly when the
caster knows the spell, the spell is a raid-marker spell, the caster has a
clientside periodic-trigger aura granting it, or the game-object target's
unlock spell equals the resolved spell; any resulting cast is marked fully
system-triggered exactly when it passed through the trigger-aura exemption;
and the request is rejected without any cast when the override-resolved
spell is passive or the player is possessing another unit. -/
theorem c4_known_spell_and_rejection (st : CastState) (spellId : Nat) (si : SpellInfo)
    (hm : st.mover = MoverKind.self) (hr : st.registry spellId = some si) :
    (knownSpellGate st Who.player si ≠ none ↔
      (st.playerKnows si.id = true ∨ si.changeRaidMarkerEffect = true ∨
        si.raidMarkerAttr8 = true ∨ st.playerTriggerAura si.id = true ∨
        st.goLockSpell = some si.id))
    ∧ (∀ w s f, HandleCastSpellOpcode st spellId = CastOutcome.cast w s f →
        (f = true ↔ (st.playerKnows si.id = false ∧ si.changeRaidMarkerEffect = false ∧
          si.raidMarkerAttr8 = false ∧ st.playerTriggerAura si.id = true)))
    ∧ ((st.playerCastOverride si).isPassive = true ∨ st.isPossessing = true →
        HandleCastSpellOpcode st spellId = CastOutcome.ignored) := by
  have hveh : vehicleRedirect st si = some Who.player := by
    simp [vehicleRedirect, hm]
  refine ⟨?_, ?_, ?_⟩
  · cases hpk : st.playerKnows si.id <;>
      cases hce : si.changeRaidMarkerEffect <;>
        cases hra : si.raidMarkerAttr8 <;>
          cases hta : st.playerTriggerAura si.id <;>
            by_cases hgo : st.goLockSpell = some si.id <;>
              simp [knownSpellGate, hpk, hce, hra, hta, hgo]
  · intro w s f h
    unfold HandleCastSpellOpcode at h
    rw [if_neg (by simp [hm])] at h
    simp only [hr, hveh] at h
    cases hgate : knownSpellGate st Who.player si with
    | none =>
      simp only [hgate] at h
      exact CastOutcome.noConfusion h
    | some ft =>
      simp only [hgate] at h
      split at h
      · exact CastOutcome.noConfusion h
      · split at h
        · exact CastOutcome.noConfusion h
        · split at h
          · exact CastOutcome.noConfusion h
          · injection h with h1 h2 h3
            rw [← h3]
            exact knownSpellGate_flag st si ft hgate
  · intro hd
    unfold HandleCastSpellOpcode
    rw [if_neg (by simp [hm])]
    simp only [hr, hveh]
    cases hgate : knownSpellGate st Who.player si with
    | none => simp [hgate]
    | some ft =>
      simp only [hgate]
      rcases hd with hd | hd
      · simp [CastState.overrideFor, hd]
      · by_cases hpass : (st.overrideFor Who.player si).isPassive = true
        · simp [hpass]
        · simp [hpass, hd]

/-- Claim C4 (witness): the clientside periodic-trigger aura granting
spell 9 lets the request of the unknown spell 9 pass the known-spell
gate. -/
theorem c4_known_spell_and_rejection_witness :
    knownSpellGate c4WitState Who.player (plainSpell 9) ≠ none :=
  (c4_known_spell_and_rejection c4WitState 9 (plainSpell 9) rfl rfl).1.mpr
    (Or.inr (Or.inr (Or.inr (Or.inl rfl))))
